import Mathlib

/-!
Verification development for the candlestick-screener pattern-detection and
scoring engine.

Shallow embedding conventions:
* Python floats are modelled as exact rationals (`ℚ`).
* A pandas DataFrame of OHLCV rows is a `List Bar`, ordered ascending by date,
  with the columns Open/High/Low/Close/Volume as the fields of `Bar`.
* `df.tail(n)` is `tailN n`, `series.iloc[-1-k]` is `fromEndD xs k`,
  `np.mean` is `mean`, `np.max`/`np.min` of a nonempty array are `maxD`/`minD`.
* A rolling mean whose window has not filled yet is NaN in pandas; values that
  can be NaN are modelled as `Option ℚ`, and a comparison against NaN (always
  false in Python) is modelled by matching `none` to `false`.
* A detector returning `'bullish'`/`'bearish'`/`None` returns `Option Signal`.
* The scorer's `try ... except` is modelled in the `Option` monad: the only
  statement in the guarded block that can raise on clean numeric data is
  indexing the last element of an empty array, which is a `getLast?` bind.
-/

namespace Screener

/-- One OHLCV row of the input DataFrame (columns Open, High, Low, Close, Volume). -/
structure Bar where
  openPrice : ℚ
  high : ℚ
  low : ℚ
  close : ℚ
  volume : ℚ
deriving DecidableEq

instance : Inhabited Bar := ⟨⟨0, 0, 0, 0, 0⟩⟩

/-- A detector's raw directional output: the strings `'bullish'` / `'bearish'`. -/
inductive Signal
  | bullish
  | bearish
deriving DecidableEq

/-- An ordered OHLCV history for one symbol. -/
abbrev BarSeries := List Bar

/-- The `burst_type` argument of `detect_momentum_burst`:
the strings `'any'`, `'1d'`, `'3d'`, `'5d'`. -/
inductive BurstType
  | any
  | d1
  | d3
  | d5
deriving DecidableEq

/-- Arithmetic mean (`np.mean` / `Series.mean`) of a list of values. -/
def mean (xs : List ℚ) : ℚ := xs.sum / (xs.length : ℚ)

/-- The last `n` rows, `df.tail(n)`; the whole list when it is shorter than `n`. -/
def tailN {α : Type} (n : ℕ) (l : List α) : List α := l.drop (l.length - n)

/-- The element `k` positions from the end, `xs.iloc[-1-k]`, with default `0`. -/
def fromEndD (xs : List ℚ) (k : ℕ) : ℚ := xs.getD (xs.length - 1 - k) 0

/-- Maximum of a list (`np.max` / `Series.max`), `none` on the empty list. -/
def maxQ : List ℚ → Option ℚ
  | [] => none
  | a :: t => some (t.foldl max a)

/-- Minimum of a list (`np.min` / `Series.min`), `none` on the empty list. -/
def minQ : List ℚ → Option ℚ
  | [] => none
  | a :: t => some (t.foldl min a)

/-- Maximum of a nonempty list, defaulting to `0` on the empty list. -/
def maxD (l : List ℚ) : ℚ := (maxQ l).getD 0

/-- Minimum of a nonempty list, defaulting to `0` on the empty list. -/
def minD (l : List ℚ) : ℚ := (minQ l).getD 0

/-- Index clamping of `numpy.take(..., mode='clip')`: clamp `j` into `[0, n-1]`. -/
def clipIdx (n : ℕ) (j : ℤ) : ℕ := (min (max j 0) ((n : ℤ) - 1)).toNat

/-- Element access with clipped index, as used by `scipy.signal.argrelextrema`. -/
def getClip (xs : List ℚ) (j : ℤ) : ℚ := xs.getD (clipIdx xs.length j) 0

/-- Whether index `i` is a relative maximum of order `order`
(`argrelextrema(xs, np.greater, order=order)`): strictly greater than every
neighbour within `order` steps, indices clipped at the boundary.  Boundary
points are never extrema because the clipped self-comparison is false. -/
def isRelMaxAt (xs : List ℚ) (order : ℕ) (i : ℕ) : Bool :=
  (List.range order).all (fun s =>
    decide (getClip xs ((i : ℤ) + ((s : ℤ) + 1)) < xs.getD i 0) &&
    decide (getClip xs ((i : ℤ) - ((s : ℤ) + 1)) < xs.getD i 0))

/-- Whether index `i` is a relative minimum of order `order`
(`argrelextrema(xs, np.less, order=order)`). -/
def isRelMinAt (xs : List ℚ) (order : ℕ) (i : ℕ) : Bool :=
  (List.range order).all (fun s =>
    decide (xs.getD i 0 < getClip xs ((i : ℤ) + ((s : ℤ) + 1))) &&
    decide (xs.getD i 0 < getClip xs ((i : ℤ) - ((s : ℤ) + 1))))

/-- Ascending list of the relative-maximum indices of `xs`. -/
def relMaxIndices (xs : List ℚ) (order : ℕ) : List ℕ :=
  (List.range xs.length).filter (fun i => isRelMaxAt xs order i)

/-- Ascending list of the relative-minimum indices of `xs`. -/
def relMinIndices (xs : List ℚ) (order : ℕ) : List ℕ :=
  (List.range xs.length).filter (fun i => isRelMinAt xs order i)

/-! ### pattern_scoring.py -/

/-- TA-Lib `RSI(closes, timeperiod=period)`, final value: Wilder smoothing of
gains and losses seeded by the simple average of the first `period` changes;
`100*avgGain/(avgGain+avgLoss)`, and `0` when that denominator is zero. -/
def talibRSI (closes : List ℚ) (period : ℕ) : ℚ :=
  let diffs := (closes.zip closes.tail).map (fun p => p.2 - p.1)
  let initGain := mean ((diffs.take period).map (fun d => max d 0))
  let initLoss := mean ((diffs.take period).map (fun d => max (-d) 0))
  let st := (diffs.drop period).foldl
    (fun gl d =>
      ((gl.1 * ((period : ℚ) - 1) + max d 0) / (period : ℚ),
       (gl.2 * ((period : ℚ) - 1) + max (-d) 0) / (period : ℚ)))
    (initGain, initLoss)
  if st.1 + st.2 = 0 then 0 else 100 * st.1 / (st.1 + st.2)

/-- TA-Lib `ATR(high, low, close, timeperiod=period)`, final value: Wilder
smoothing of the true range, seeded by the simple average of the first
`period` true ranges (true range needs a previous close, so starts at row 1). -/
def talibATR (high low close : List ℚ) (period : ℕ) : ℚ :=
  let trs := (List.range (close.length - 1)).map (fun i =>
    max (high.getD (i + 1) 0 - low.getD (i + 1) 0)
      (max |high.getD (i + 1) 0 - close.getD i 0| |low.getD (i + 1) 0 - close.getD i 0|))
  (trs.drop period).foldl
    (fun a tr => (a * ((period : ℚ) - 1) + tr) / (period : ℚ))
    (mean (trs.take period))

/-- Body of the `try:` block of `calculate_pattern_strength`, producing the raw
(unclamped) score.  The two `getLast?` binds are the `volume[-1]` and
`close[-1]` indexings, the only statements of the block that raise on a clean
numeric series (they raise `IndexError` exactly when the series is empty);
`none` is the exceptional outcome.  `np.mean` of an empty slice is NaN (a
warning, not an exception), and every comparison against NaN is false, hence
the `Option`-valued `avgVol`, `rsi` and `atr` with `none` treated as false. -/
def strengthTryBody (df : BarSeries) (res : Signal) : Option ℤ := do
  let recent := tailN 20 df
  let close := recent.map Bar.close
  let volume := recent.map Bar.volume
  let high := recent.map Bar.high
  let low := recent.map Bar.low
  -- 1. Volume Confirmation (±20 points)
  let avgVol : Option ℚ := if volume.dropLast = [] then none else some (mean volume.dropLast)
  let recentVolume ← volume.getLast?
  let s1 : ℤ :=
    match avgVol with
    | some a =>
        if a * (3/2) < recentVolume then 20
        else if a * (6/5) < recentVolume then 10
        else if recentVolume < a * (1/2) then -20
        else 0
    | none => 0
  -- 2. Trend Strength (±15 points)
  let sma20 := mean close
  let currentPrice ← close.getLast?
  let s2 : ℤ :=
    match res with
    | Signal.bullish =>
        if sma20 * (51/50) < currentPrice then 15
        else if currentPrice < sma20 * (49/50) then 5
        else 0
    | Signal.bearish =>
        if currentPrice < sma20 * (49/50) then 15
        else if sma20 * (51/50) < currentPrice then 5
        else 0
  -- 3. RSI Context (±10 points): computed on the full series when len(df) >= 14;
  -- the value itself is NaN unless len(df) >= 15 (lookback of RSI(14) is 14)
  let rsi : Option ℚ :=
    if 14 ≤ df.length then
      (if 15 ≤ df.length then some (talibRSI (df.map Bar.close) 14) else none)
    else none
  let s3 : ℤ :=
    match rsi with
    | some r =>
        (match res with
         | Signal.bullish =>
             if 30 < r ∧ r < 50 then 10 else if 70 < r then -10 else 0
         | Signal.bearish =>
             if 50 < r ∧ r < 70 then 10 else if r < 30 then -10 else 0)
    | none => 0
  -- 4. Volatility (±5 points): ATR(14) over the 20-row window, NaN unless the
  -- window has at least 15 rows
  let atr : Option ℚ :=
    if 15 ≤ recent.length then some (talibATR high low close 14) else none
  let s4 : ℤ :=
    match atr with
    | some a =>
        if 0 < currentPrice then
          (if 1 < a / currentPrice * 100 ∧ a / currentPrice * 100 < 3 then 5
           else if 5 < a / currentPrice * 100 then -5
           else 0)
        else 0
    | none => 0
  -- 5. Price consolidation (±10 points)
  let s5 : ℤ :=
    if 0 < currentPrice then
      (if (maxD (tailN 5 close) - minD (tailN 5 close)) / currentPrice < 3/100 then 10
       else if 1/10 < (maxD (tailN 5 close) - minD (tailN 5 close)) / currentPrice then -5
       else 0)
    else 0
  return 50 + s1 + s2 + s3 + s4 + s5

/-- `calculate_pattern_strength(df, pattern_result, pattern_name)`:
`0` for a `None` result, otherwise the `try:` block's score clamped to
`[0, 100]`, and the neutral `50` when the block raises. -/
def calculate_pattern_strength (df : BarSeries) (pattern_result : Option Signal)
    (pattern_name : String) : ℤ :=
  match pattern_result with
  | none => 0
  | some res =>
      match strengthTryBody df res with
      | some s => max 0 (min 100 s)
      | none => 50

/-- Quality label `'strong'`. -/
def qStrong : String := "strong"

/-- Quality label `'good'`. -/
def qGood : String := "good"

/-- Quality label `'moderate'`. -/
def qModerate : String := "moderate"

/-- Quality label `'weak'`. -/
def qWeak : String := "weak"

/-- Quality label `'very_weak'`. -/
def qVeryWeak : String := "very_weak"

/-- `get_signal_quality(score)`: convert a numeric score to a quality label. -/
def get_signal_quality (score : ℤ) : String :=
  if 80 ≤ score then qStrong
  else if 60 ≤ score then qGood
  else if 40 ≤ score then qModerate
  else if 20 ≤ score then qWeak
  else qVeryWeak

/-! ### explosive_volume_scanner.py -/

/-- `detect_explosive_volume_3x(df, lookback)`: today's volume at least 3x the
average of the preceding `lookback` rows. -/
def detect_explosive_volume_3x (df : BarSeries) (lookback : ℕ) : Option Signal :=
  if df.length < lookback + 1 then none
  else
    let recent := tailN (lookback + 1) df
    let today_volume := fromEndD (recent.map Bar.volume) 0
    let avg_volume := mean (recent.dropLast.map Bar.volume)
    if avg_volume = 0 then none
    else if 3 ≤ today_volume / avg_volume then some Signal.bullish
    else none

/-- `detect_explosive_volume_5x(df, lookback)`: today's volume at least 5x the
average of the preceding `lookback` rows. -/
def detect_explosive_volume_5x (df : BarSeries) (lookback : ℕ) : Option Signal :=
  if df.length < lookback + 1 then none
  else
    let recent := tailN (lookback + 1) df
    let today_volume := fromEndD (recent.map Bar.volume) 0
    let avg_volume := mean (recent.dropLast.map Bar.volume)
    if avg_volume = 0 then none
    else if 5 ≤ today_volume / avg_volume then some Signal.bullish
    else none

/-- `detect_explosive_volume_10x(df, lookback)`: today's volume at least 10x the
average of the preceding `lookback` rows. -/
def detect_explosive_volume_10x (df : BarSeries) (lookback : ℕ) : Option Signal :=
  if df.length < lookback + 1 then none
  else
    let recent := tailN (lookback + 1) df
    let today_volume := fromEndD (recent.map Bar.volume) 0
    let avg_volume := mean (recent.dropLast.map Bar.volume)
    if avg_volume = 0 then none
    else if 10 ≤ today_volume / avg_volume then some Signal.bullish
    else none

/-- `detect_volume_surge_with_price(df, lookback, min_price_change)`:
3x volume surge combined with an open-to-close move of at least
`min_price_change` percent; the sign of the move picks the direction. -/
def detect_volume_surge_with_price (df : BarSeries) (lookback : ℕ)
    (min_price_change : ℚ) : Option Signal :=
  if df.length < lookback + 1 then none
  else
    let recent := tailN (lookback + 1) df
    let today_volume := fromEndD (recent.map Bar.volume) 0
    let today_close := fromEndD (recent.map Bar.close) 0
    let today_open := fromEndD (recent.map Bar.openPrice) 0
    let avg_volume := mean (recent.dropLast.map Bar.volume)
    if avg_volume = 0 then none
    else
      let price_change := (today_close - today_open) / today_open * 100
      if 3 ≤ today_volume / avg_volume ∧ min_price_change ≤ |price_change| then
        (if 0 < price_change then some Signal.bullish else some Signal.bearish)
      else none

/-! ### momentum_burst_scanner.py -/

/-- `detect_momentum_burst(df, burst_type)`.  The working window is
`df.tail(30)`; the last row's rolling `SMA_20` is NaN exactly when that window
has fewer than 20 rows (the `pd.isna(sma_20)` early return), which the second
length test models.  Percentage moves over 1/3/5 bars against the same-bar,
3-bar and 5-bar volume conditions, all gated on `price < sma_20` returning
`None`. -/
def detect_momentum_burst (df : BarSeries) (burst_type : BurstType) : Option Signal :=
  if df.length < 20 then none
  else
    let recent := tailN 30 df
    if recent.length < 20 then none
    else
      let price := fromEndD (recent.map Bar.close) 0
      let volume := fromEndD (recent.map Bar.volume) 0
      let sma_20 := mean ((tailN 20 recent).map Bar.close)
      let avg_volume := mean ((tailN 20 recent).map Bar.volume)
      if avg_volume = 0 then none
      else if price < sma_20 then none
      else
        let pct_change_1d : ℚ :=
          if 2 ≤ recent.length then
            (if 0 < fromEndD (recent.map Bar.close) 1 then
              (price - fromEndD (recent.map Bar.close) 1) / fromEndD (recent.map Bar.close) 1 * 100
             else 0)
          else 0
        let pct_change_3d : ℚ :=
          if 4 ≤ recent.length then
            (if 0 < fromEndD (recent.map Bar.close) 3 then
              (price - fromEndD (recent.map Bar.close) 3) / fromEndD (recent.map Bar.close) 3 * 100
             else 0)
          else 0
        let pct_change_5d : ℚ :=
          if 6 ≤ recent.length then
            (if 0 < fromEndD (recent.map Bar.close) 5 then
              (price - fromEndD (recent.map Bar.close) 5) / fromEndD (recent.map Bar.close) 5 * 100
             else 0)
          else 0
        if (burst_type = BurstType.any ∨ burst_type = BurstType.d1) ∧
            4 ≤ pct_change_1d ∧ 2 ≤ volume / avg_volume then some Signal.bullish
        else if (burst_type = BurstType.any ∨ burst_type = BurstType.d3) ∧
            6 ≤ pct_change_3d ∧
            avg_volume * (3/2) ≤ mean ((tailN 3 recent).map Bar.volume) then some Signal.bullish
        else if (burst_type = BurstType.any ∨ burst_type = BurstType.d5) ∧
            8 ≤ pct_change_5d ∧
            avg_volume * (13/10) ≤ mean ((tailN 5 recent).map Bar.volume) then some Signal.bullish
        else none

/-- `detect_momentum_burst_1d(df)`. -/
def detect_momentum_burst_1d (df : BarSeries) : Option Signal :=
  detect_momentum_burst df BurstType.d1

/-- `detect_momentum_burst_3d(df)`. -/
def detect_momentum_burst_3d (df : BarSeries) : Option Signal :=
  detect_momentum_burst df BurstType.d3

/-- `detect_momentum_burst_5d(df)`. -/
def detect_momentum_burst_5d (df : BarSeries) : Option Signal :=
  detect_momentum_burst df BurstType.d5

/-! ### qullamaggie_scanner.py -/

/-- `detect_qullamaggie_breakout(df, lookback_days, volume_multiplier)`.
Works on `df.tail(50)`; the rolling `SMA_10`/`SMA_20` of the last row are NaN
when the window is shorter than 10/20 rows, modelled as `Option` with a `none`
condition evaluating to false (`sma10_valid`/`sma20_valid` in the source); the
unused `SMA_50` column is not modelled.  `lookback_data` is
`recent.iloc[-lookback_days-1:-1]`, the `lookback_days` rows before today. -/
def detect_qullamaggie_breakout (df : BarSeries) (lookback_days : ℕ)
    (volume_multiplier : ℚ) : Option Signal :=
  if df.length < lookback_days + 20 then none
  else
    let recent := tailN 50 df
    let sma10 : Option ℚ :=
      if 10 ≤ recent.length then some (mean ((tailN 10 recent).map Bar.close)) else none
    let sma20 : Option ℚ :=
      if 20 ≤ recent.length then some (mean ((tailN 20 recent).map Bar.close)) else none
    let todayClose := fromEndD (recent.map Bar.close) 0
    let todayVolume := fromEndD (recent.map Bar.volume) 0
    let lookback_data := (tailN (lookback_days + 1) recent).dropLast
    if lookback_data.length < lookback_days then none
    else
      let avg_volume := mean (lookback_data.map Bar.volume)
      let price_breakout : Bool :=
        match maxQ (lookback_data.map Bar.high) with
        | some h => decide (h < todayClose)
        | none => false
      let volume_spike : Bool := decide (avg_volume * volume_multiplier < todayVolume)
      let above_sma10 : Bool :=
        match sma10 with
        | some s => decide (s < todayClose)
        | none => false
      let above_sma20 : Bool :=
        match sma20 with
        | some s => decide (s < todayClose)
        | none => false
      let uptrend : Bool :=
        match sma10, sma20 with
        | some s10, some s20 => decide (s20 < s10)
        | _, _ => false
      if price_breakout && volume_spike && above_sma10 && above_sma20 && uptrend then
        some Signal.bullish
      else none

/-! ### supertrend_scanner.py -/

/-- High at row `i` of the series (default `0` out of range). -/
def highAt (df : BarSeries) (i : ℕ) : ℚ := (df.map Bar.high).getD i 0

/-- Low at row `i` of the series (default `0` out of range). -/
def lowAt (df : BarSeries) (i : ℕ) : ℚ := (df.map Bar.low).getD i 0

/-- Close at row `i` of the series (default `0` out of range). -/
def closeAt (df : BarSeries) (i : ℕ) : ℚ := (df.map Bar.close).getD i 0

/-- True range at row `i`, as computed by `calculate_atr`: the row-wise
`max(high-low, |high-prev_close|, |low-prev_close|)`.  At row 0 the two
previous-close terms are NaN and the pandas row-wise max skips NaN, leaving
`high - low`. -/
def trAt (df : BarSeries) (i : ℕ) : ℚ :=
  if i = 0 then highAt df 0 - lowAt df 0
  else
    max (highAt df i - lowAt df i)
      (max |highAt df i - closeAt df (i - 1)| |lowAt df i - closeAt df (i - 1)|)

/-- `calculate_atr(df, period)` at row `i`: the rolling mean of the true range
over the window ending at `i` (meaningful once the window is full, `i ≥ period - 1`). -/
def atrAt (df : BarSeries) (period : ℕ) (i : ℕ) : ℚ :=
  mean ((List.range period).map (fun k => trAt df (i - k)))

/-- Basic upper band at row `i`: `(high+low)/2 + multiplier * ATR`. -/
def upperBand (df : BarSeries) (period : ℕ) (mult : ℚ) (i : ℕ) : ℚ :=
  (highAt df i + lowAt df i) / 2 + mult * atrAt df period i

/-- Basic lower band at row `i`: `(high+low)/2 - multiplier * ATR`. -/
def lowerBand (df : BarSeries) (period : ℕ) (mult : ℚ) (i : ℕ) : ℚ :=
  (highAt df i + lowAt df i) / 2 - mult * atrAt df period i

/-- Seeding of `calculate_supertrend` at `first_valid = period`: bearish on the
upper band when the close is at most the naive upper band, else bullish on the
lower band. -/
def stSeed (df : BarSeries) (period : ℕ) (mult : ℚ) : ℚ × ℤ :=
  if closeAt df period ≤ upperBand df period mult period then
    (upperBand df period mult period, -1)
  else
    (lowerBand df period mult period, 1)

/-- One iteration of the `calculate_supertrend` loop at row `i`, from the
previous row's `(supertrend, direction)` pair. -/
def stStep (df : BarSeries) (period : ℕ) (mult : ℚ) (i : ℕ) (prev : ℚ × ℤ) : ℚ × ℤ :=
  if prev.2 = 1 then
    -- was bullish: the lower band can only go up or stay
    let final_lower := if prev.1 < lowerBand df period mult i then lowerBand df period mult i else prev.1
    if closeAt df i ≤ final_lower then (upperBand df period mult i, -1)
    else (final_lower, 1)
  else
    -- was bearish: the upper band can only go down or stay
    let final_upper := if upperBand df period mult i < prev.1 then upperBand df period mult i else prev.1
    if final_upper ≤ closeAt df i then (lowerBand df period mult i, 1)
    else (final_upper, -1)

/-- The `(supertrend, direction)` state of `calculate_supertrend` at row
`period + k`, as a fold of `stStep` from the seed. -/
def stAux (df : BarSeries) (period : ℕ) (mult : ℚ) : ℕ → ℚ × ℤ
  | 0 => stSeed df period mult
  | k + 1 => stStep df period mult (period + k + 1) (stAux df period mult k)

/-- The `supertrend` column of `calculate_supertrend` at row `i ≥ period`
(rows before `first_valid` are NaN in the source and not meaningful here). -/
def supertrendAt (df : BarSeries) (period : ℕ) (mult : ℚ) (i : ℕ) : ℚ :=
  (stAux df period mult (i - period)).1

/-- The `supertrend_direction` column of `calculate_supertrend` at row
`i ≥ period` (1 bullish, -1 bearish). -/
def directionAt (df : BarSeries) (period : ℕ) (mult : ℚ) (i : ℕ) : ℤ :=
  (stAux df period mult (i - period)).2

/-- `detect_supertrend_bullish(df, max_days_ago)`: scan the last
`max_days_ago+1` rows for a bullish flip that is still bullish at the latest
row.  `trend_change` is `direction.diff() != 0`, which is true at row 0
(NaN != 0); rows before the seed carry the unset integer placeholder of the
source's direction series, modelled as `0`. -/
def detect_supertrend_bullish (df : BarSeries) (max_days_ago : ℕ) : Option Signal :=
  if df.length < 50 then none
  else
    let dirAt := fun (j : ℕ) => if j < 10 then (0 : ℤ) else directionAt df 10 3 j
    let trendChange := fun (j : ℕ) => j = 0 ∨ dirAt j ≠ dirAt (j - 1)
    let start := df.length - (max_days_ago + 1)
    if (List.range' start (df.length - start)).any (fun j =>
        decide (trendChange j) && decide (dirAt j = 1) && decide (dirAt (df.length - 1) = 1)) then
      some Signal.bullish
    else none

/-- `detect_supertrend_fresh(df)`: flip within 1 day. -/
def detect_supertrend_fresh (df : BarSeries) : Option Signal :=
  detect_supertrend_bullish df 1

/-- `detect_supertrend_recent(df)`: flip within 2 days. -/
def detect_supertrend_recent (df : BarSeries) : Option Signal :=
  detect_supertrend_bullish df 2

/-! ### custom_patterns.py -/

/-- The close values that `detect_cup_and_handle` works on: `df.tail(120)['Close']`. -/
def cupCloses (df : BarSeries) : List ℚ := (tailN 120 df).map Bar.close

/-- The local-maxima indices of the cup-and-handle working window. -/
def cupMaxima (df : BarSeries) (window : ℕ) : List ℕ :=
  relMaxIndices (cupCloses df) window

/-- The local-minima indices of the cup-and-handle working window. -/
def cupMinima (df : BarSeries) (window : ℕ) : List ℕ :=
  relMinIndices (cupCloses df) window

/-- The consecutive (left rim, right rim) maxima pairs that the
cup-and-handle loop iterates over, in chronological order. -/
def cupPairs (df : BarSeries) (window : ℕ) : List (ℕ × ℕ) :=
  (cupMaxima df window).zip (cupMaxima df window).tail

/-- One iteration of the cup-and-handle loop for the rim pair
`(left_rim, right_rim)`: true exactly when none of the loop's `continue`
conditions fires and the final breakout-proximity test passes.
`cup_bottom` is the argmin of `close[left_rim:right_rim]`, so `bottom_price`
is that slice's minimum. -/
def cupQualifies (close : List ℚ) (minimaIdx : List ℕ)
    (cup_depth_min cup_depth_max handle_depth_max : ℚ)
    (left_rim right_rim : ℕ) : Bool :=
  decide ((minimaIdx.filter (fun m => left_rim < m ∧ m < right_rim)) ≠ []) &&
  (let left_price := close.getD left_rim 0
   let bottom_price := minD ((close.drop left_rim).take (right_rim - left_rim))
   let right_price := close.getD right_rim 0
   let cup_depth := (left_price - bottom_price) / left_price
   decide (cup_depth_min ≤ cup_depth) && decide (cup_depth ≤ cup_depth_max) &&
   decide (|right_price - left_price| / left_price ≤ 5/100) &&
   decide (right_rim + 5 < close.length) &&
   decide (5 ≤ close.length - right_rim) &&
   (let handle_low := minD (close.drop right_rim)
    decide ((right_price - handle_low) / right_price ≤ cup_depth * handle_depth_max) &&
    decide (right_price * (97/100) ≤ fromEndD close 0)))

/-- `detect_cup_and_handle(df, cup_depth_min, cup_depth_max, handle_depth_max, window)`:
bullish when some consecutive maxima pair qualifies (the loop returns at the
first qualifying pair, which is observationally `List.any`). -/
def detect_cup_and_handle (df : BarSeries) (cup_depth_min cup_depth_max
    handle_depth_max : ℚ) (window : ℕ) : Option Signal :=
  if df.length < 60 then none
  else
    if (cupMaxima df window).length < 2 ∨ (cupMinima df window).length < 1 then none
    else if (cupPairs df window).any (fun p =>
        cupQualifies (cupCloses df) (cupMinima df window)
          cup_depth_min cup_depth_max handle_depth_max p.1 p.2) then
      some Signal.bullish
    else none

/-- The `np.std(xs)/np.mean(xs) < 0.02` test of `detect_ascending_triangle`,
stated without square roots: for a positive mean it is equivalent to
`variance < (0.02*mean)^2`; for a negative mean the quotient is nonpositive,
hence below 0.02; for a zero mean the float quotient is inf or NaN and the
comparison is false. -/
def stdOverMeanLtTwoPct (xs : List ℚ) : Bool :=
  let m := mean xs
  let v := mean (xs.map (fun x => (x - m) * (x - m)))
  if 0 < m then decide (v < (m / 50) * (m / 50)) else decide (m < 0)

/-- `detect_ascending_triangle(df, window)`: flat top (recent local maxima of
the highs with relative spread under 2%) plus rising recent local minima of
the lows. -/
def detect_ascending_triangle (df : BarSeries) (window : ℕ) : Option Signal :=
  if df.length < 40 then none
  else
    let high := (tailN 60 df).map Bar.high
    let low := (tailN 60 df).map Bar.low
    let maximaIdx := relMaxIndices high window
    if maximaIdx.length < 2 then none
    else
      let recent_highs :=
        (if 3 ≤ maximaIdx.length then tailN 3 maximaIdx else tailN 2 maximaIdx).map
          (fun i => high.getD i 0)
      if stdOverMeanLtTwoPct recent_highs then
        (let minimaIdx := relMinIndices low window
         if 2 ≤ minimaIdx.length then
           (let recent_lows := (tailN 2 minimaIdx).map (fun i => low.getD i 0)
            if recent_lows.getD 0 0 < recent_lows.getD 1 0 then some Signal.bullish
            else none)
         else none)
      else none

/-- `detect_double_bottom(df, window)`: last two local minima of the lows
within 3% of each other, more than 5 bars apart, with an intervening peak at
least 5% above the first bottom. -/
def detect_double_bottom (df : BarSeries) (window : ℕ) : Option Signal :=
  if df.length < 40 then none
  else
    let low := (tailN 80 df).map Bar.low
    let minimaIdx := relMinIndices low window
    if minimaIdx.length < 2 then none
    else
      let bottom1_idx := minimaIdx.getD (minimaIdx.length - 2) 0
      let bottom2_idx := minimaIdx.getD (minimaIdx.length - 1) 0
      let bottom1_price := low.getD bottom1_idx 0
      let bottom2_price := low.getD bottom2_idx 0
      if |bottom1_price - bottom2_price| / bottom1_price < 3/100 then
        (if bottom1_idx + 5 < bottom2_idx then
          (let middle := (low.drop bottom1_idx).take (bottom2_idx - bottom1_idx)
           if bottom1_price * (21/20) < maxD middle then some Signal.bullish
           else none)
         else none)
      else none

/-- `detect_bull_flag(df, pole_min_gain, flag_max_decline, window)`: scan
`i in range(10, len(close)-10)` for a pole of at least `pole_min_gain` over
10 bars followed by a bounded flag, with the current price not below 98% of
the flag low; the loop returns at the first hit (`List.any`). -/
def detect_bull_flag (df : BarSeries) (pole_min_gain flag_max_decline : ℚ)
    (window : ℕ) : Option Signal :=
  if df.length < 30 then none
  else
    let close := (tailN 50 df).map Bar.close
    if (List.range' 10 (close.length - 20)).any (fun i =>
        let pole_start := close.getD (i - 10) 0
        let pole_gain := (close.getD i 0 - pole_start) / pole_start
        decide (0 < pole_start) &&
        decide (pole_min_gain ≤ pole_gain) &&
        (let flag_section :=
          if i + 10 < close.length then (close.drop i).take 10 else close.drop i
         decide (5 ≤ flag_section.length) &&
         (let flag_high := maxD flag_section
          let flag_low := minD flag_section
          decide ((flag_high - flag_low) / flag_high < pole_gain * flag_max_decline) &&
          decide (flag_low * (49/50) ≤ fromEndD close 0)))) then
      some Signal.bullish
    else none

/-- `detect_bear_flag(df, pole_min_decline, flag_max_gain, window)`: scan for
a downward pole of at least `pole_min_decline` over 10 bars followed by a
bounded bounce, with the current price not above 102% of the flag high (the
unused `Low` column of the source is not modelled). -/
def detect_bear_flag (df : BarSeries) (pole_min_decline flag_max_gain : ℚ)
    (window : ℕ) : Option Signal :=
  if df.length < 30 then none
  else
    let close := (tailN 50 df).map Bar.close
    if (List.range' 10 (close.length - 20)).any (fun i =>
        let pole_start := close.getD (i - 10) 0
        let pole_decline := (pole_start - close.getD i 0) / pole_start
        decide (0 < pole_start) &&
        decide (pole_min_decline ≤ pole_decline) &&
        (let flag_section :=
          if i + 10 < close.length then (close.drop i).take 10 else close.drop i
         decide (5 ≤ flag_section.length) &&
         (let flag_high := maxD flag_section
          let flag_low := minD flag_section
          decide (0 < flag_low) &&
          decide ((flag_high - flag_low) / flag_low < pole_decline * flag_max_gain) &&
          decide (fromEndD close 0 ≤ flag_high * (51/50))))) then
      some Signal.bearish
    else none

/-! ### Abbreviations used to state the claims -/

/-- The latest close of the series. -/
def lastCloseD (df : BarSeries) : ℚ := fromEndD (df.map Bar.close) 0

/-- The latest volume of the series. -/
def lastVolumeD (df : BarSeries) : ℚ := fromEndD (df.map Bar.volume) 0

/-- Simple moving average of the last `k` closes of the series. -/
def smaLastD (k : ℕ) (df : BarSeries) : ℚ := mean ((tailN k df).map Bar.close)

/-- The `lookback` rows preceding the latest row. -/
def priorWindow (lookback : ℕ) (df : BarSeries) : List Bar :=
  (tailN (lookback + 1) df).dropLast

/-- The highest high of the `lookback` rows preceding the latest row. -/
def priorHighD (lookback : ℕ) (df : BarSeries) : ℚ :=
  maxD ((priorWindow lookback df).map Bar.high)

/-- The average volume of the `lookback` rows preceding the latest row. -/
def priorAvgVolD (lookback : ℕ) (df : BarSeries) : ℚ :=
  mean ((priorWindow lookback df).map Bar.volume)

/-! ### Concrete series used by witnesses and counterexamples -/

/-- A bar with all four prices equal to `c` and volume `v`. -/
def flatBar (c v : ℚ) : Bar := ⟨c, c, c, c, v⟩

/-- A 20-bar series whose latest close exactly equals its 20-bar SMA
(closes sum to 2000, last close 100), with an 11% 1-day move on 100 volume
against an average near 14.5. -/
def seriesSmaEq : BarSeries :=
  [flatBar 110 10, flatBar 100 10, flatBar 100 10, flatBar 100 10, flatBar 100 10,
   flatBar 100 10, flatBar 100 10, flatBar 100 10, flatBar 100 10, flatBar 100 10,
   flatBar 100 10, flatBar 100 10, flatBar 100 10, flatBar 100 10, flatBar 100 10,
   flatBar 100 10, flatBar 100 10, flatBar 100 10, flatBar 90 10, flatBar 100 100]

/-- A 21-bar series with a 30x volume spike on the last bar. -/
def seriesVolSpike : BarSeries :=
  List.replicate 20 (flatBar 1 1) ++ [flatBar 1 30]

/-- A 3-bar series seeding the trend state bearish and staying bearish. -/
def seriesTrend : BarSeries :=
  [flatBar 10 0, flatBar 10 0, ⟨9, 10, 10, 9, 0⟩]

/-- A 2-bar series for the trend-state seeding: at row 1 the upper band is 17
and the close 11, so the seed is bearish. -/
def seriesSeed : BarSeries :=
  [flatBar 10 0, ⟨10, 12, 10, 11, 0⟩]

/-- A flat 40-bar series. -/
def seriesFlat40 : BarSeries := List.replicate 40 (flatBar 100 10)

/-- A flat 20-bar series. -/
def seriesFlat20 : BarSeries := List.replicate 20 (flatBar 100 10)

/-- The closes of a 60-bar cup-and-handle shape (rims at 100, bottom at 80,
handle dipping to 95) followed by a rally that ends 29% above the rims. -/
def cupRallyCloses : List ℚ :=
  [90, 91, 92, 93, 94,
   100,
   95, 92, 88, 85, 82, 81, 80, 81, 82, 85, 88, 92,
   95, 97, 98, 99, 100,
   97, 96, 95, 96, 97, 98, 99]
  ++ (List.range 30).map (fun j => 100 + (j : ℚ))

/-- The 60-bar cup-and-handle-then-rally series. -/
def seriesCupRally : BarSeries := cupRallyCloses.map (fun c => flatBar c 0)

/-- A detector name, for instantiating `pattern_name`. -/
def nameCup : String := "CUP_AND_HANDLE"

/-- Another detector name, for instantiating `pattern_name`. -/
def nameFlag : String := "BULL_FLAG"

/-! ## Helper lemmas -/

theorem length_tailN {α : Type} (n : ℕ) (l : List α) :
    (tailN n l).length = min n l.length := by
  simp only [tailN, List.length_drop]
  omega

theorem tailN_tailN {α : Type} {m n : ℕ} (h : m ≤ n) (l : List α) :
    tailN m (tailN n l) = tailN m l := by
  simp only [tailN, List.length_drop, List.drop_drop]
  congr 1
  omega

theorem map_tailN {α β : Type} (f : α → β) (n : ℕ) (l : List α) :
    (tailN n l).map f = tailN n (l.map f) := by
  simp [tailN, List.map_drop, List.length_map]

theorem getD_drop {α : Type} (l : List α) (i j : ℕ) (d : α) :
    (l.drop i).getD j d = l.getD (i + j) d := by
  simp [List.getD_eq_getElem?_getD, List.getElem?_drop]

theorem fromEndD_tailN (xs : List ℚ) (n k : ℕ) (h1 : k < n) (h2 : k < xs.length) :
    fromEndD (tailN n xs) k = fromEndD xs k := by
  unfold fromEndD tailN
  rw [getD_drop, List.length_drop]
  congr 1
  omega

theorem maxQ_eq_some {l : List ℚ} (h : l ≠ []) : maxQ l = some (maxD l) := by
  cases l with
  | nil => exact absurd rfl h
  | cons a t => rfl

theorem ite_bullish_eq {b : Bool} :
    (if b then some Signal.bullish else none) = some Signal.bullish ↔ b = true := by
  cases b <;> simp

/-! ## The claims -/

/-- C3: `get_signal_quality` maps a score to its label exactly by the
thresholds: `≥ 80 → strong`, `[60, 80) → good`, `[40, 60) → moderate`,
`[20, 40) → weak`, `< 20 → very_weak`. -/
theorem get_signal_quality_thresholds (s : ℤ) :
    (80 ≤ s → get_signal_quality s = qStrong) ∧
    (60 ≤ s ∧ s < 80 → get_signal_quality s = qGood) ∧
    (40 ≤ s ∧ s < 60 → get_signal_quality s = qModerate) ∧
    (20 ≤ s ∧ s < 40 → get_signal_quality s = qWeak) ∧
    (s < 20 → get_signal_quality s = qVeryWeak) := by
  unfold get_signal_quality
  refine ⟨?_, ?_, ?_, ?_, ?_⟩ <;> intro h <;>
    split_ifs with h1 h2 h3 h4 <;> first | rfl | (exfalso; omega)

/-- Witness for C3 at the boundary scores 80, 79, 60 and 59. -/
theorem get_signal_quality_thresholds_witness :
    get_signal_quality 80 = qStrong ∧ get_signal_quality 79 = qGood ∧
    get_signal_quality 60 = qGood ∧ get_signal_quality 59 = qModerate :=
  ⟨(get_signal_quality_thresholds 80).1 (by norm_num),
   (get_signal_quality_thresholds 79).2.1 (by norm_num),
   (get_signal_quality_thresholds 60).2.1 (by norm_num),
   (get_signal_quality_thresholds 59).2.2.1 (by norm_num)⟩

/-- C2: `calculate_pattern_strength` always returns an integer in `[0, 100]`;
a `none` signal scores exactly `0` (the heuristic block is never entered);
and if the heuristic block raises, the result is exactly `50`. -/
theorem pattern_strength_contract (df : BarSeries) (sig : Option Signal) (pname : String) :
    (0 ≤ calculate_pattern_strength df sig pname ∧
      calculate_pattern_strength df sig pname ≤ 100) ∧
    (sig = none → calculate_pattern_strength df sig pname = 0) ∧
    (∀ s, sig = some s → strengthTryBody df s = none →
      calculate_pattern_strength df sig pname = 50) := by
  have enone : calculate_pattern_strength df none pname = 0 := rfl
  have esome : ∀ res, calculate_pattern_strength df (some res) pname =
      (match strengthTryBody df res with
       | some s => max 0 (min 100 s)
       | none => 50) := fun _ => rfl
  refine ⟨?_, ?_, ?_⟩
  · cases sig with
    | none =>
      rw [enone]
      norm_num
    | some res =>
      rw [esome res]
      cases hb : strengthTryBody df res with
      | none => norm_num
      | some v => exact ⟨le_max_left 0 _, max_le (by norm_num) (min_le_left 100 v)⟩
  · intro h
    subst h
    exact enone
  · intro s hs hb
    subst hs
    rw [esome s, hb]

/-- Witness for C2: on the empty series a `none` signal scores 0, and the
heuristic block raises (indexing the last element of an empty array), giving
the neutral 50. -/
theorem pattern_strength_contract_witness :
    calculate_pattern_strength [] none nameCup = 0 ∧
    calculate_pattern_strength [] (some Signal.bullish) nameCup = 50 :=
  ⟨(pattern_strength_contract [] none nameCup).2.1 rfl,
   (pattern_strength_contract [] (some Signal.bullish) nameCup).2.2
     Signal.bullish rfl rfl⟩

/-- C10: the strength score never depends on the `pattern_name` argument: for
the same series and same non-none signal, any two detector names give the
same score. -/
theorem pattern_strength_ignores_name (df : BarSeries) (sig : Option Signal)
    (h : sig ≠ none) (n1 n2 : String) :
    calculate_pattern_strength df sig n1 = calculate_pattern_strength df sig n2 := rfl

/-- Witness for C10 at a concrete series, signal and name pair. -/
theorem pattern_strength_ignores_name_witness :
    calculate_pattern_strength [flatBar 1 1] (some Signal.bullish) nameCup =
      calculate_pattern_strength [flatBar 1 1] (some Signal.bullish) nameFlag :=
  pattern_strength_ignores_name [flatBar 1 1] (some Signal.bullish) (by simp) nameCup nameFlag

/-- C4: volume-spike monotonicity — on any series and lookback, a 10x flag
implies the 5x and 3x flags. -/
theorem explosive_volume_monotone (df : BarSeries) (lookback : ℕ)
    (h : detect_explosive_volume_10x df lookback = some Signal.bullish) :
    detect_explosive_volume_5x df lookback = some Signal.bullish ∧
    detect_explosive_volume_3x df lookback = some Signal.bullish := by
  simp only [detect_explosive_volume_10x] at h
  simp only [detect_explosive_volume_5x, detect_explosive_volume_3x]
  split_ifs at h with h1 h2 h3
  constructor
  · rw [if_neg h1, if_neg h2, if_pos (le_trans (by norm_num : (5:ℚ) ≤ 10) h3)]
  · rw [if_neg h1, if_neg h2, if_pos (le_trans (by norm_num : (3:ℚ) ≤ 10) h3)]

/-- Witness for C4 on a series with a 30x volume spike. -/
theorem explosive_volume_monotone_witness :
    detect_explosive_volume_10x seriesVolSpike 20 = some Signal.bullish ∧
    (detect_explosive_volume_5x seriesVolSpike 20 = some Signal.bullish ∧
     detect_explosive_volume_3x seriesVolSpike 20 = some Signal.bullish) :=
  ⟨by with_unfolding_all rfl,
   explosive_volume_monotone seriesVolSpike 20 (by with_unfolding_all rfl)⟩

/-- C1: every detector returns `none` (and in this total embedding, cannot
raise) on any series shorter than its documented minimum length: 60 bars for
cup-and-handle, 40 for ascending triangle and double bottom, 30 for the
flags, 20 for the momentum bursts, `lookback+1` for the explosive-volume and
volume-surge detectors, `lookback+20` for the Qullamaggie breakout, and 50
for the SuperTrend detectors. -/
theorem short_series_yields_none (df : BarSeries) :
    (∀ a b c w, df.length < 60 → detect_cup_and_handle df a b c w = none) ∧
    (∀ w, df.length < 40 → detect_ascending_triangle df w = none) ∧
    (∀ w, df.length < 40 → detect_double_bottom df w = none) ∧
    (∀ a b w, df.length < 30 → detect_bull_flag df a b w = none) ∧
    (∀ a b w, df.length < 30 → detect_bear_flag df a b w = none) ∧
    (df.length < 20 → detect_momentum_burst_1d df = none ∧
      detect_momentum_burst_3d df = none ∧ detect_momentum_burst_5d df = none) ∧
    (∀ lb, df.length < lb + 1 → detect_explosive_volume_3x df lb = none ∧
      detect_explosive_volume_5x df lb = none ∧ detect_explosive_volume_10x df lb = none) ∧
    (∀ lb mpc, df.length < lb + 1 → detect_volume_surge_with_price df lb mpc = none) ∧
    (∀ lb vm, df.length < lb + 20 → detect_qullamaggie_breakout df lb vm = none) ∧
    (∀ mda, df.length < 50 → detect_supertrend_bullish df mda = none) ∧
    (df.length < 50 → detect_supertrend_fresh df = none ∧
      detect_supertrend_recent df = none) := by
  refine ⟨?_, ?_, ?_, ?_, ?_, ?_, ?_, ?_, ?_, ?_, ?_⟩
  · intro a b c w h
    simp [detect_cup_and_handle, h]
  · intro w h
    simp [detect_ascending_triangle, h]
  · intro w h
    simp [detect_double_bottom, h]
  · intro a b w h
    simp [detect_bull_flag, h]
  · intro a b w h
    simp [detect_bear_flag, h]
  · intro h
    refine ⟨?_, ?_, ?_⟩ <;>
      simp [detect_momentum_burst_1d, detect_momentum_burst_3d,
        detect_momentum_burst_5d, detect_momentum_burst, h]
  · intro lb h
    refine ⟨?_, ?_, ?_⟩ <;>
      simp [detect_explosive_volume_3x, detect_explosive_volume_5x,
        detect_explosive_volume_10x, h]
  · intro lb mpc h
    simp [detect_volume_surge_with_price, h]
  · intro lb vm h
    simp [detect_qullamaggie_breakout, h]
  · intro mda h
    simp [detect_supertrend_bullish, h]
  · intro h
    constructor <;>
      simp [detect_supertrend_fresh, detect_supertrend_recent,
        detect_supertrend_bullish, h]

/-- Witness for C1 on the empty series, one instance per detector family. -/
theorem short_series_yields_none_witness :
    detect_cup_and_handle [] (12/100) (33/100) (1/2) 5 = none ∧
    detect_ascending_triangle [] 5 = none ∧
    detect_double_bottom [] 5 = none ∧
    detect_bull_flag [] (1/10) (1/2) 3 = none ∧
    detect_bear_flag [] (1/10) (1/2) 3 = none ∧
    detect_momentum_burst_1d [] = none ∧
    detect_explosive_volume_3x [] 20 = none ∧
    detect_volume_surge_with_price [] 20 2 = none ∧
    detect_qullamaggie_breakout [] 20 (3/2) = none ∧
    detect_supertrend_bullish [] 3 = none ∧
    detect_supertrend_fresh [] = none := by
  obtain ⟨h1, h2, h3, h4, h5, h6, h7, h8, h9, h10, h11⟩ := short_series_yields_none []
  exact ⟨h1 _ _ _ _ (by decide), h2 _ (by decide), h3 _ (by decide),
    h4 _ _ _ (by decide), h5 _ _ _ (by decide), (h6 (by decide)).1,
    (h7 20 (by decide)).1, h8 20 2 (by decide), h9 20 (3/2) (by decide),
    h10 3 (by decide), (h11 (by decide)).1⟩

/-- C5: the trend-state ratchet invariant — at any bar after the seed, if the
previous bar was bullish and no flip to bearish occurs at this bar, the
SuperTrend line does not decrease; symmetrically, while bearish without a flip
the line does not increase. -/
theorem supertrend_ratchet (df : BarSeries) (period : ℕ) (mult : ℚ) (i : ℕ)
    (hlo : period < i) (hhi : i < df.length) :
    (directionAt df period mult (i - 1) = 1 → directionAt df period mult i = 1 →
      supertrendAt df period mult (i - 1) ≤ supertrendAt df period mult i) ∧
    (directionAt df period mult (i - 1) = -1 → directionAt df period mult i = -1 →
      supertrendAt df period mult i ≤ supertrendAt df period mult (i - 1)) := by
  obtain ⟨k, rfl⟩ : ∃ k, i = period + k + 1 := ⟨i - period - 1, by omega⟩
  have e1 : period + k + 1 - 1 - period = k := by omega
  have e2 : period + k + 1 - period = k + 1 := by omega
  have estep : stAux df period mult (k + 1) =
      stStep df period mult (period + k + 1) (stAux df period mult k) := rfl
  simp only [directionAt, supertrendAt, e1, e2, estep]
  constructor
  · intro hd hd2
    have hstep : stStep df period mult (period + k + 1) (stAux df period mult k) =
        (if closeAt df (period + k + 1) ≤
            (if (stAux df period mult k).1 < lowerBand df period mult (period + k + 1)
             then lowerBand df period mult (period + k + 1)
             else (stAux df period mult k).1)
         then (upperBand df period mult (period + k + 1), -1)
         else ((if (stAux df period mult k).1 < lowerBand df period mult (period + k + 1)
                then lowerBand df period mult (period + k + 1)
                else (stAux df period mult k).1), 1)) := by
      unfold stStep
      rw [if_pos hd]
    rw [hstep] at hd2 ⊢
    by_cases hflip : closeAt df (period + k + 1) ≤
        (if (stAux df period mult k).1 < lowerBand df period mult (period + k + 1)
         then lowerBand df period mult (period + k + 1)
         else (stAux df period mult k).1)
    · rw [if_pos hflip] at hd2
      exact absurd hd2 (by dsimp only; decide)
    · rw [if_neg hflip]
      by_cases hlt : (stAux df period mult k).1 < lowerBand df period mult (period + k + 1)
      · rw [if_pos hlt]
        exact le_of_lt hlt
      · rw [if_neg hlt]
  · intro hd hd2
    have hne : ¬ ((stAux df period mult k).2 = 1) := by
      rw [hd]
      decide
    have hstep : stStep df period mult (period + k + 1) (stAux df period mult k) =
        (if (if upperBand df period mult (period + k + 1) < (stAux df period mult k).1
             then upperBand df period mult (period + k + 1)
             else (stAux df period mult k).1) ≤ closeAt df (period + k + 1)
         then (lowerBand df period mult (period + k + 1), 1)
         else ((if upperBand df period mult (period + k + 1) < (stAux df period mult k).1
                then upperBand df period mult (period + k + 1)
                else (stAux df period mult k).1), -1)) := by
      unfold stStep
      rw [if_neg hne]
    rw [hstep] at hd2 ⊢
    by_cases hflip : (if upperBand df period mult (period + k + 1) < (stAux df period mult k).1
        then upperBand df period mult (period + k + 1)
        else (stAux df period mult k).1) ≤ closeAt df (period + k + 1)
    · rw [if_pos hflip] at hd2
      exact absurd hd2 (by dsimp only; decide)
    · rw [if_neg hflip]
      by_cases hlt : upperBand df period mult (period + k + 1) < (stAux df period mult k).1
      · rw [if_pos hlt]
        exact le_of_lt hlt
      · rw [if_neg hlt]

/-- Witness for C5 on a 3-bar series that seeds bearish and stays bearish:
the line does not increase from bar 1 to bar 2. -/
theorem supertrend_ratchet_witness :
    directionAt seriesTrend 1 3 1 = -1 ∧ directionAt seriesTrend 1 3 2 = -1 ∧
    supertrendAt seriesTrend 1 3 2 ≤ supertrendAt seriesTrend 1 3 1 :=
  ⟨by with_unfolding_all rfl, by with_unfolding_all rfl,
   (supertrend_ratchet seriesTrend 1 3 2 (by decide) (by decide)).2
     (by with_unfolding_all rfl) (by with_unfolding_all rfl)⟩

/-- C8: trend-state seeding — on any series long enough, the direction is
seeded at the first bar with a full ATR window (`first_valid = period`, the
first row whose window of true ranges all have a previous close), and the
seed is bearish exactly when the close there is at most the naive upper band
(midprice plus multiplier times ATR), bullish otherwise. -/
theorem supertrend_seed (df : BarSeries) (period : ℕ) (mult : ℚ)
    (h : period < df.length) :
    (directionAt df period mult period = -1 ↔
      closeAt df period ≤ upperBand df period mult period) ∧
    (directionAt df period mult period = 1 ↔
      ¬ closeAt df period ≤ upperBand df period mult period) := by
  have e0 : period - period = 0 := by omega
  simp only [directionAt, e0]
  have eseed : stAux df period mult 0 = stSeed df period mult := rfl
  rw [eseed]
  unfold stSeed
  by_cases hc : closeAt df period ≤ upperBand df period mult period
  · rw [if_pos hc]
    constructor
    · exact ⟨fun _ => hc, fun _ => rfl⟩
    · exact ⟨fun hcon => absurd hcon (by dsimp only; decide), fun hcon => absurd hc hcon⟩
  · rw [if_neg hc]
    constructor
    · exact ⟨fun hcon => absurd hcon (by dsimp only; decide), fun hcon => absurd hcon hc⟩
    · exact ⟨fun _ => hc, fun _ => rfl⟩

/-- Witness for C8 on a 2-bar series with ATR period 1: at row 1 the upper
band is 17 and the close 11, so the seed is bearish. -/
theorem supertrend_seed_witness :
    1 < seriesSeed.length ∧ directionAt seriesSeed 1 3 1 = -1 :=
  ⟨by decide,
   (supertrend_seed seriesSeed 1 3 (by decide)).1.mpr (by with_unfolding_all rfl)⟩

/-- C6 counterexample: the momentum-burst gate is `price < sma_20`, not
`price ≤ sma_20`, so a series whose latest close exactly equals its 20-bar
SMA can still fire bullish — the close is not strictly greater than the SMA,
refuting the claim as stated. -/
theorem momentum_sma_gate_counterexample :
    detect_momentum_burst_1d seriesSmaEq = some Signal.bullish ∧
    ¬ (smaLastD 20 seriesSmaEq < lastCloseD seriesSmaEq) :=
  ⟨by with_unfolding_all rfl, of_decide_eq_true (by with_unfolding_all rfl)⟩

/-- C6 (amended): for every series of length at least 20, a momentum-burst
detector fires bullish only if the latest close is at least (not necessarily
strictly above) the 20-bar SMA, and whenever the latest close is strictly
below that average the result is `none` regardless of price change and
volume. -/
theorem momentum_sma_gate (df : BarSeries) (h : 20 ≤ df.length) :
    (lastCloseD df < smaLastD 20 df →
      detect_momentum_burst df BurstType.d1 = none ∧
      detect_momentum_burst df BurstType.d3 = none ∧
      detect_momentum_burst df BurstType.d5 = none) ∧
    (∀ bt, detect_momentum_burst df bt = some Signal.bullish →
      smaLastD 20 df ≤ lastCloseD df) := by
  have hg : ¬ (df.length < 20) := by omega
  have hrec : ¬ ((tailN 30 df).length < 20) := by
    rw [length_tailN]
    omega
  have hprice : fromEndD ((tailN 30 df).map Bar.close) 0 = lastCloseD df := by
    rw [map_tailN,
      fromEndD_tailN (df.map Bar.close) 30 0 (by norm_num) (by simp; omega)]
    rfl
  have hsma : mean ((tailN 20 (tailN 30 df)).map Bar.close) = smaLastD 20 df := by
    rw [tailN_tailN (by norm_num)]
    rfl
  constructor
  · intro hlt
    refine ⟨?_, ?_, ?_⟩ <;>
    · by_cases hv : mean ((tailN 20 (tailN 30 df)).map Bar.volume) = 0
      · simp [detect_momentum_burst, hg, hrec, hv]
      · simp [detect_momentum_burst, hg, hrec, hv, hprice, hsma, hlt]
  · intro bt hb
    by_contra hnle
    have hlt := not_le.mp hnle
    by_cases hv : mean ((tailN 20 (tailN 30 df)).map Bar.volume) = 0
    · simp [detect_momentum_burst, hg, hrec, hv] at hb
    · simp [detect_momentum_burst, hg, hrec, hv, hprice, hsma, hlt] at hb

/-- Witness for C6 on the concrete series whose close equals its SMA: the 1d
burst fires and the amended gate conclusion holds. -/
theorem momentum_sma_gate_witness :
    20 ≤ seriesSmaEq.length ∧ smaLastD 20 seriesSmaEq ≤ lastCloseD seriesSmaEq :=
  ⟨by decide,
   (momentum_sma_gate seriesSmaEq (by decide)).2 BurstType.d1 (by with_unfolding_all rfl)⟩

/-- C7: with the default lookback 20 and multiplier 1.5, on any series of at
least lookback+20 bars the Qullamaggie detector fires bullish iff all five
conditions hold at the latest bar: close strictly above the prior 20-bar high
excluding today, volume strictly above 1.5x that window's average volume,
close above SMA10, close above SMA20, and SMA10 above SMA20 (an
insufficiently warmed-up SMA would make its condition false rather than
raise, and under this length hypothesis both SMAs are warm). -/
theorem qullamaggie_breakout_iff (df : BarSeries) (h : 40 ≤ df.length) :
    detect_qullamaggie_breakout df 20 (3/2) = some Signal.bullish ↔
      (priorHighD 20 df < lastCloseD df ∧
       priorAvgVolD 20 df * (3/2) < lastVolumeD df ∧
       smaLastD 10 df < lastCloseD df ∧
       smaLastD 20 df < lastCloseD df ∧
       smaLastD 20 df < smaLastD 10 df) := by
  have hg : ¬ (df.length < 40) := by omega
  have h10 : 10 ≤ (tailN 50 df).length := by
    rw [length_tailN]
    omega
  have h20 : 20 ≤ (tailN 50 df).length := by
    rw [length_tailN]
    omega
  have ht : tailN 21 (tailN 50 df) = tailN 21 df := tailN_tailN (by norm_num) df
  have hlblen : ¬ (((tailN 21 df).dropLast).length < 20) := by
    rw [List.length_dropLast, length_tailN]
    omega
  have hsma10 : mean ((tailN 10 (tailN 50 df)).map Bar.close) = smaLastD 10 df := by
    rw [tailN_tailN (by norm_num)]
    rfl
  have hsma20 : mean ((tailN 20 (tailN 50 df)).map Bar.close) = smaLastD 20 df := by
    rw [tailN_tailN (by norm_num)]
    rfl
  have htoday : fromEndD ((tailN 50 df).map Bar.close) 0 = lastCloseD df := by
    rw [map_tailN,
      fromEndD_tailN (df.map Bar.close) 50 0 (by norm_num) (by simp; omega)]
    rfl
  have hvol : fromEndD ((tailN 50 df).map Bar.volume) 0 = lastVolumeD df := by
    rw [map_tailN,
      fromEndD_tailN (df.map Bar.volume) 50 0 (by norm_num) (by simp; omega)]
    rfl
  have hne : ((tailN 21 df).dropLast).map Bar.high ≠ [] := by
    intro hcon
    have := congrArg List.length hcon
    simp [List.length_dropLast, length_tailN] at this
    omega
  have hmax : maxQ (((tailN 21 df).dropLast).map Bar.high) = some (priorHighD 20 df) :=
    maxQ_eq_some hne
  have havg : mean (((tailN 21 df).dropLast).map Bar.volume) = priorAvgVolD 20 df := rfl
  simp only [detect_qullamaggie_breakout, hg, if_false, h10, h20, if_true, ht, hlblen,
    hsma10, hsma20, htoday, hvol, hmax, havg]
  rw [ite_bullish_eq]
  simp [Bool.and_eq_true, decide_eq_true_eq, and_assoc]

/-- Witness for C7 on a flat 40-bar series (where no condition holds and the
detector accordingly returns none). -/
theorem qullamaggie_breakout_iff_witness :
    40 ≤ seriesFlat40.length ∧
    (detect_qullamaggie_breakout seriesFlat40 20 (3/2) = some Signal.bullish ↔
      (priorHighD 20 seriesFlat40 < lastCloseD seriesFlat40 ∧
       priorAvgVolD 20 seriesFlat40 * (3/2) < lastVolumeD seriesFlat40 ∧
       smaLastD 10 seriesFlat40 < lastCloseD seriesFlat40 ∧
       smaLastD 20 seriesFlat40 < lastCloseD seriesFlat40 ∧
       smaLastD 20 seriesFlat40 < smaLastD 10 seriesFlat40)) :=
  ⟨by decide, qullamaggie_breakout_iff seriesFlat40 (by decide)⟩

set_option maxRecDepth 8000 in
/-- C9 counterexample: the breakout-proximity check of `detect_cup_and_handle`
is one-sided (`current_price >= right_price * 0.97`), so a series that rallies
to 29% above both rims still fires bullish even though the latest close is
within 3% of no local maximum at all — refuting "within 3% of the right-rim
price level" as stated. -/
theorem cup_breakout_proximity_counterexample :
    detect_cup_and_handle seriesCupRally (12/100) (33/100) (1/2) 5 = some Signal.bullish ∧
    ∀ i ∈ cupMaxima seriesCupRally 5,
      ¬ (|fromEndD (cupCloses seriesCupRally) 0 - (cupCloses seriesCupRally).getD i 0| ≤
          (3/100) * (cupCloses seriesCupRally).getD i 0) :=
  ⟨by with_unfolding_all rfl, of_decide_eq_true (by with_unfolding_all rfl)⟩

/-- C9 (amended): `detect_cup_and_handle` returns bullish only when some
consecutive-maxima rim pair passes every cup and handle check and the latest
close is at least 97% of the right-rim price level — the proximity test has
no upper bound, so closes arbitrarily far above the rim also qualify. -/
theorem cup_breakout_proximity (df : BarSeries) (a b c : ℚ) (w : ℕ)
    (h : detect_cup_and_handle df a b c w = some Signal.bullish) :
    ∃ p ∈ cupPairs df w,
      cupQualifies (cupCloses df) (cupMinima df w) a b c p.1 p.2 = true ∧
      (cupCloses df).getD p.2 0 * (97/100) ≤ fromEndD (cupCloses df) 0 := by
  simp only [detect_cup_and_handle] at h
  split_ifs at h with h1 h2 h3
  rw [List.any_eq_true] at h3
  obtain ⟨p, hp, hq⟩ := h3
  refine ⟨p, hp, hq, ?_⟩
  have hq2 := hq
  simp only [cupQualifies, Bool.and_eq_true, decide_eq_true_eq, and_assoc] at hq2
  obtain ⟨-, -, -, -, -, -, -, hprox⟩ := hq2
  exact hprox

set_option maxRecDepth 8000 in
/-- Witness for C9 on the cup-then-rally series: the qualifying pair exists
and its right rim is at most the latest close over 0.97. -/
theorem cup_breakout_proximity_witness :
    ∃ p ∈ cupPairs seriesCupRally 5,
      cupQualifies (cupCloses seriesCupRally) (cupMinima seriesCupRally 5)
        (12/100) (33/100) (1/2) p.1 p.2 = true ∧
      (cupCloses seriesCupRally).getD p.2 0 * (97/100) ≤
        fromEndD (cupCloses seriesCupRally) 0 :=
  cup_breakout_proximity seriesCupRally (12/100) (33/100) (1/2) 5
    (by with_unfolding_all rfl)

end Screener
